import Mathlib

/-!
Shallow embedding of the `is-default-rs` crate: the `IsDefault` capability
(`fn is_default(&self) -> bool`) for primitive types, standard containers,
pointer wrappers, lock wrappers and the derive generator.

Each concrete `IsDefault` impl from the source is embedded as an executable
Lean function.  A type whose impl is generic over the pointee or element
capability takes the pointee/element check `d : α → Bool` as a parameter.
-/

/- ### Floating point bit-level model

Rust `f32`/`f64` values are modelled by their bit patterns (a `Nat` below
`2 ^ 32` resp. `2 ^ 64`).  For a format with `e` exponent bits and `m`
mantissa bits, the bit layout is: sign bit, then `e` exponent bits, then `m`
mantissa bits. -/

/-- Exponent field of a bit pattern in a format with `e` exponent and `m` mantissa bits. -/
def expField (e m b : Nat) : Nat := b / 2 ^ m % 2 ^ e

/-- Mantissa field of a bit pattern in a format with `m` mantissa bits. -/
def manField (m b : Nat) : Nat := b % 2 ^ m

/-- NaN bit pattern: exponent field all ones and mantissa field nonzero. -/
def isNaNBits (e m b : Nat) : Bool :=
  expField e m b == 2 ^ e - 1 && manField m b != 0

/-- Zero of either sign: exponent field and mantissa field both zero
(only the sign bit may be set). -/
def isZeroBits (e m b : Nat) : Bool := b % 2 ^ (e + m) == 0

/-- IEEE-754 equality of two same-format bit patterns, which is the semantics
of Rust `==` on `f32`/`f64` and of a float literal pattern in `matches!`:
false when either operand is NaN; otherwise two same-width non-NaN values are
equal exactly when their bit patterns coincide or both are zeros (`+0.0 == -0.0`). -/
def floatEqBits (e m a b : Nat) : Bool :=
  !isNaNBits e m a && !isNaNBits e m b && (a == b || (isZeroBits e m a && isZeroBits e m b))

/-- Embeds `matches_impl!(f32, 0f32)`: `matches!(self, 0f32)`, i.e. IEEE
equality of `self` with `+0.0` (bit pattern `0`). -/
def f32_is_default (b : Nat) : Bool := floatEqBits 8 23 b 0

/-- Embeds `matches_impl!(f64, 0f64)`: `matches!(self, 0f64)`. -/
def f64_is_default (b : Nat) : Bool := floatEqBits 11 52 b 0

/- ### Primitive scalar impls -/

/-- Embeds `matches_impl!(bool, false)`: `matches!(self, false)`. -/
def bool_is_default (b : Bool) : Bool :=
  match b with
  | false => true
  | true => false

/-- Embeds `matches_impl!(char, '\x00')`; a `char` is modelled by its code point. -/
def char_is_default (c : Nat) : Bool := c == 0

/-- Embeds `matches_impl!(uN, 0uN)` for the unsigned integer primitives
(u8..u128, usize), modelled by `Nat`. -/
def uint_is_default (x : Nat) : Bool := x == 0

/-- Embeds `matches_impl!(iN, 0iN)` for the signed integer primitives
(i8..i128, isize), modelled by `Int`. -/
def int_is_default (x : Int) : Bool := x == 0

/-- Embeds `is_empty_impl!(str)`: `self.is_empty()`; a `str` is modelled as
its list of characters. -/
def str_is_default (s : List Char) : Bool := s.isEmpty

/- ### Slices, arrays, references and the unit type -/

/-- Embeds `impl<T: IsDefault> IsDefault for [T]`:
`if self.is_empty() { true } else { self.iter().all(|x| x.is_default()) }`. -/
def slice_is_default {α : Type} (d : α → Bool) (l : List α) : Bool :=
  if l.isEmpty then true else l.all d

/-- Embeds `impl<T: IsDefault, const N: usize> IsDefault for [T; N]`:
`self.as_slice().is_default()`; the array is the function of its `N` cells. -/
def array_is_default {α : Type} {n : Nat} (d : α → Bool) (v : Fin n → α) : Bool :=
  slice_is_default d (List.ofFn v)

/-- Embeds `ref_impl!(&T)`: `(**self).is_default()` delegates to the referent. -/
def ref_is_default {α : Type} (d : α → Bool) (v : α) : Bool := d v

/-- Embeds `ref_impl!(&mut T)`: `(**self).is_default()` delegates to the referent. -/
def mutref_is_default {α : Type} (d : α → Bool) (v : α) : Bool := d v

/-- Embeds `unit_impl!(())`: always `true`. -/
def unit_is_default (_u : Unit) : Bool := true

/- ### Tuple impls, generated by `tuple_impls!(K J I H G F E D C B A T)`:
one impl per arity 1..12, each the short-circuit AND of the components. -/

/-- Arity-1 tuple `(T,)`. -/
def tuple1_is_default {α1 : Type} (d1 : α1 → Bool) (a1 : α1) : Bool := d1 a1

/-- Arity-2 tuple. -/
def tuple2_is_default {α1 α2 : Type} (d1 : α1 → Bool) (d2 : α2 → Bool) :
    α1 × α2 → Bool :=
  fun (a1, a2) => d1 a1 && d2 a2

/-- Arity-3 tuple. -/
def tuple3_is_default {α1 α2 α3 : Type} (d1 : α1 → Bool) (d2 : α2 → Bool)
    (d3 : α3 → Bool) : α1 × α2 × α3 → Bool :=
  fun (a1, a2, a3) => d1 a1 && d2 a2 && d3 a3

/-- Arity-4 tuple. -/
def tuple4_is_default {α1 α2 α3 α4 : Type} (d1 : α1 → Bool) (d2 : α2 → Bool)
    (d3 : α3 → Bool) (d4 : α4 → Bool) : α1 × α2 × α3 × α4 → Bool :=
  fun (a1, a2, a3, a4) => d1 a1 && d2 a2 && d3 a3 && d4 a4

/-- Arity-5 tuple. -/
def tuple5_is_default {α1 α2 α3 α4 α5 : Type} (d1 : α1 → Bool) (d2 : α2 → Bool)
    (d3 : α3 → Bool) (d4 : α4 → Bool) (d5 : α5 → Bool) :
    α1 × α2 × α3 × α4 × α5 → Bool :=
  fun (a1, a2, a3, a4, a5) => d1 a1 && d2 a2 && d3 a3 && d4 a4 && d5 a5

/-- Arity-6 tuple. -/
def tuple6_is_default {α1 α2 α3 α4 α5 α6 : Type} (d1 : α1 → Bool) (d2 : α2 → Bool)
    (d3 : α3 → Bool) (d4 : α4 → Bool) (d5 : α5 → Bool) (d6 : α6 → Bool) :
    α1 × α2 × α3 × α4 × α5 × α6 → Bool :=
  fun (a1, a2, a3, a4, a5, a6) => d1 a1 && d2 a2 && d3 a3 && d4 a4 && d5 a5 && d6 a6

/-- Arity-7 tuple. -/
def tuple7_is_default {α1 α2 α3 α4 α5 α6 α7 : Type} (d1 : α1 → Bool) (d2 : α2 → Bool)
    (d3 : α3 → Bool) (d4 : α4 → Bool) (d5 : α5 → Bool) (d6 : α6 → Bool)
    (d7 : α7 → Bool) : α1 × α2 × α3 × α4 × α5 × α6 × α7 → Bool :=
  fun (a1, a2, a3, a4, a5, a6, a7) =>
    d1 a1 && d2 a2 && d3 a3 && d4 a4 && d5 a5 && d6 a6 && d7 a7

/-- Arity-8 tuple. -/
def tuple8_is_default {α1 α2 α3 α4 α5 α6 α7 α8 : Type} (d1 : α1 → Bool)
    (d2 : α2 → Bool) (d3 : α3 → Bool) (d4 : α4 → Bool) (d5 : α5 → Bool)
    (d6 : α6 → Bool) (d7 : α7 → Bool) (d8 : α8 → Bool) :
    α1 × α2 × α3 × α4 × α5 × α6 × α7 × α8 → Bool :=
  fun (a1, a2, a3, a4, a5, a6, a7, a8) =>
    d1 a1 && d2 a2 && d3 a3 && d4 a4 && d5 a5 && d6 a6 && d7 a7 && d8 a8

/-- Arity-9 tuple. -/
def tuple9_is_default {α1 α2 α3 α4 α5 α6 α7 α8 α9 : Type} (d1 : α1 → Bool)
    (d2 : α2 → Bool) (d3 : α3 → Bool) (d4 : α4 → Bool) (d5 : α5 → Bool)
    (d6 : α6 → Bool) (d7 : α7 → Bool) (d8 : α8 → Bool) (d9 : α9 → Bool) :
    α1 × α2 × α3 × α4 × α5 × α6 × α7 × α8 × α9 → Bool :=
  fun (a1, a2, a3, a4, a5, a6, a7, a8, a9) =>
    d1 a1 && d2 a2 && d3 a3 && d4 a4 && d5 a5 && d6 a6 && d7 a7 && d8 a8 && d9 a9

/-- Arity-10 tuple. -/
def tuple10_is_default {α1 α2 α3 α4 α5 α6 α7 α8 α9 α10 : Type} (d1 : α1 → Bool)
    (d2 : α2 → Bool) (d3 : α3 → Bool) (d4 : α4 → Bool) (d5 : α5 → Bool)
    (d6 : α6 → Bool) (d7 : α7 → Bool) (d8 : α8 → Bool) (d9 : α9 → Bool)
    (d10 : α10 → Bool) : α1 × α2 × α3 × α4 × α5 × α6 × α7 × α8 × α9 × α10 → Bool :=
  fun (a1, a2, a3, a4, a5, a6, a7, a8, a9, a10) =>
    d1 a1 && d2 a2 && d3 a3 && d4 a4 && d5 a5 && d6 a6 && d7 a7 && d8 a8 && d9 a9 &&
      d10 a10

/-- Arity-11 tuple. -/
def tuple11_is_default {α1 α2 α3 α4 α5 α6 α7 α8 α9 α10 α11 : Type} (d1 : α1 → Bool)
    (d2 : α2 → Bool) (d3 : α3 → Bool) (d4 : α4 → Bool) (d5 : α5 → Bool)
    (d6 : α6 → Bool) (d7 : α7 → Bool) (d8 : α8 → Bool) (d9 : α9 → Bool)
    (d10 : α10 → Bool) (d11 : α11 → Bool) :
    α1 × α2 × α3 × α4 × α5 × α6 × α7 × α8 × α9 × α10 × α11 → Bool :=
  fun (a1, a2, a3, a4, a5, a6, a7, a8, a9, a10, a11) =>
    d1 a1 && d2 a2 && d3 a3 && d4 a4 && d5 a5 && d6 a6 && d7 a7 && d8 a8 && d9 a9 &&
      d10 a10 && d11 a11

/-- Arity-12 tuple (the macro's boundary arity). -/
def tuple12_is_default {α1 α2 α3 α4 α5 α6 α7 α8 α9 α10 α11 α12 : Type}
    (d1 : α1 → Bool) (d2 : α2 → Bool) (d3 : α3 → Bool) (d4 : α4 → Bool)
    (d5 : α5 → Bool) (d6 : α6 → Bool) (d7 : α7 → Bool) (d8 : α8 → Bool)
    (d9 : α9 → Bool) (d10 : α10 → Bool) (d11 : α11 → Bool) (d12 : α12 → Bool) :
    α1 × α2 × α3 × α4 × α5 × α6 × α7 × α8 × α9 × α10 × α11 × α12 → Bool :=
  fun (a1, a2, a3, a4, a5, a6, a7, a8, a9, a10, a11, a12) =>
    d1 a1 && d2 a2 && d3 a3 && d4 a4 && d5 a5 && d6 a6 && d7 a7 && d8 a8 && d9 a9 &&
      d10 a10 && d11 a11 && d12 a12

/- ### Pointer wrappers: `deref_impl_t!(Arc | Box | Rc)` -/

/-- Model of `Box<T>`: unique-owner heap pointer, one pointee. -/
structure BoxM (α : Type) where
  val : α

/-- Model of `Rc<T>`: the pointee reachable through the strong pointer. -/
structure RcM (α : Type) where
  val : α

/-- Model of `Arc<T>`: the pointee reachable through the strong pointer. -/
structure ArcM (α : Type) where
  val : α

/-- Embeds `deref_impl_t!(Box)`: `(**self).is_default()`. -/
def box_is_default {α : Type} (d : α → Bool) (b : BoxM α) : Bool := d b.val

/-- Embeds `deref_impl_t!(Rc)`: `(**self).is_default()`. -/
def rc_is_default {α : Type} (d : α → Bool) (r : RcM α) : Bool := d r.val

/-- Embeds `deref_impl_t!(Arc)`: `(**self).is_default()`. -/
def arc_is_default {α : Type} (d : α → Bool) (a : ArcM α) : Bool := d a.val

/- ### Sequence containers: `is_empty_impl_t!` and `is_empty_impl_k_v!`.
Each container is modelled by the sequence of elements it currently holds;
`is_empty()` on every one of them means the element count is zero.  None of
the container impls places an `IsDefault` bound on the element, key or value
type, so none of the models below takes an element check. -/

/-- Model of `Vec<T>`. -/
structure VecM (α : Type) where
  elems : List α

/-- Model of `VecDeque<T>`. -/
structure VecDequeM (α : Type) where
  elems : List α

/-- Model of `LinkedList<T>`. -/
structure LinkedListM (α : Type) where
  elems : List α

/-- Model of `BTreeSet<T>`. -/
structure BTreeSetM (α : Type) where
  elems : List α

/-- Model of `HashSet<T>`. -/
structure HashSetM (α : Type) where
  elems : List α

/-- Model of `BinaryHeap<T>`. -/
structure BinaryHeapM (α : Type) where
  elems : List α

/-- Model of `BTreeMap<K, V>`. -/
structure BTreeMapM (κ ν : Type) where
  entries : List (κ × ν)

/-- Model of `HashMap<K, V>`. -/
structure HashMapM (κ ν : Type) where
  entries : List (κ × ν)

/-- Embeds `is_empty_impl_t!(Vec)`: `self.is_empty()`. -/
def vec_is_default {α : Type} (v : VecM α) : Bool := v.elems.isEmpty

/-- Embeds `is_empty_impl_t!(VecDeque)`. -/
def vecdeque_is_default {α : Type} (v : VecDequeM α) : Bool := v.elems.isEmpty

/-- Embeds `is_empty_impl_t!(LinkedList)`. -/
def linkedlist_is_default {α : Type} (v : LinkedListM α) : Bool := v.elems.isEmpty

/-- Embeds `is_empty_impl_t!(BTreeSet)`. -/
def btreeset_is_default {α : Type} (v : BTreeSetM α) : Bool := v.elems.isEmpty

/-- Embeds `is_empty_impl_t!(HashSet)`. -/
def hashset_is_default {α : Type} (v : HashSetM α) : Bool := v.elems.isEmpty

/-- Embeds `is_empty_impl_t!(BinaryHeap)`. -/
def binaryheap_is_default {α : Type} (v : BinaryHeapM α) : Bool := v.elems.isEmpty

/-- Embeds `is_empty_impl_k_v!(BTreeMap)`. -/
def btreemap_is_default {κ ν : Type} (v : BTreeMapM κ ν) : Bool := v.entries.isEmpty

/-- Embeds `is_empty_impl_k_v!(HashMap)`. -/
def hashmap_is_default {κ ν : Type} (v : HashMapM κ ν) : Bool := v.entries.isEmpty

/- ### Lock wrappers: `lock_impl!(RefCell, try_borrow)`, `lock_impl!(RwLock,
try_read)`, `lock_impl!(Mutex, try_lock)`, and `impl IsDefault for Cell<T>`.
The generated body is `self.try_xxx().map_or(false, |v| v.is_default())`:
a non-blocking acquisition attempt whose failure yields `false`. -/

/-- Model of `Mutex<T>`: the guarded value plus the runtime lock state.
`held` is true while another execution context holds the lock; `poisoned`
is true after a panic while locked. -/
structure MutexM (α : Type) where
  value : α
  held : Bool
  poisoned : Bool

/-- `Mutex::try_lock`: succeeds (without blocking) exactly when the lock is
neither held nor poisoned. -/
def mutex_try_lock {α : Type} (m : MutexM α) : Option α :=
  if m.held || m.poisoned then none else some m.value

/-- Embeds `lock_impl!(Mutex, try_lock)`:
`self.try_lock().map_or(false, |v| v.is_default())`. -/
def mutex_is_default {α : Type} (d : α → Bool) (m : MutexM α) : Bool :=
  match mutex_try_lock m with
  | none => false
  | some v => d v

/-- Model of `RwLock<T>`: `writeHeld` is true while a writer holds the lock;
`readers` counts concurrent readers (they do not block `try_read`). -/
structure RwLockM (α : Type) where
  value : α
  writeHeld : Bool
  poisoned : Bool
  readers : Nat

/-- `RwLock::try_read`: succeeds (without blocking) exactly when no writer
holds the lock and the lock is not poisoned; concurrent readers are fine. -/
def rwlock_try_read {α : Type} (r : RwLockM α) : Option α :=
  if r.writeHeld || r.poisoned then none else some r.value

/-- Embeds `lock_impl!(RwLock, try_read)`:
`self.try_read().map_or(false, |v| v.is_default())`. -/
def rwlock_is_default {α : Type} (d : α → Bool) (r : RwLockM α) : Bool :=
  match rwlock_try_read r with
  | none => false
  | some v => d v

/-- Model of `RefCell<T>`: the contained value plus the runtime borrow flag.
`writeBorrowed` is true while a `RefMut` borrow is outstanding. -/
structure RefCellM (α : Type) where
  value : α
  writeBorrowed : Bool

/-- `RefCell::try_borrow`: succeeds exactly when no mutable borrow is
outstanding (shared borrows do not conflict). -/
def refcell_try_borrow {α : Type} (c : RefCellM α) : Option α :=
  if c.writeBorrowed then none else some c.value

/-- Embeds `lock_impl!(RefCell, try_borrow)`:
`self.try_borrow().map_or(false, |v| v.is_default())`. -/
def refcell_is_default {α : Type} (d : α → Bool) (c : RefCellM α) : Bool :=
  match refcell_try_borrow c with
  | none => false
  | some v => d v

/-- Model of `Cell<T>` (with `T: Copy`): `get` always returns the value. -/
structure CellM (α : Type) where
  value : α

/-- Embeds `impl<T: Copy + IsDefault> IsDefault for Cell<T>`:
`self.get().is_default()`. -/
def cell_is_default {α : Type} (d : α → Bool) (c : CellM α) : Bool := d c.value

/- ### Weak references: `impl IsDefault for rc::Weak<T>` / `sync::Weak<T>`.
A weak handle either was created by `Weak::new()` (no allocation at all,
modelled `none`) or points to an allocation with a current strong count. -/

/-- Model of `rc::Weak<T>`. -/
structure RcWeakM (α : Type) where
  target : Option (Nat × α)

/-- Model of `sync::Weak<T>`. -/
structure SyncWeakM (α : Type) where
  target : Option (Nat × α)

/-- `rc::Weak::upgrade`: `some` of the pointee exactly when the weak points
to an allocation whose strong count is still positive. -/
def rc_weak_upgrade {α : Type} (w : RcWeakM α) : Option α :=
  match w.target with
  | none => none
  | some (strong, v) => if strong == 0 then none else some v

/-- `sync::Weak::upgrade`. -/
def sync_weak_upgrade {α : Type} (w : SyncWeakM α) : Option α :=
  match w.target with
  | none => none
  | some (strong, v) => if strong == 0 then none else some v

/-- Embeds `impl<T: ?Sized> IsDefault for rc::Weak<T>`:
`matches!(self.upgrade(), None)`; note there is no bound on `T`. -/
def rc_weak_is_default {α : Type} (w : RcWeakM α) : Bool :=
  (rc_weak_upgrade w).isNone

/-- Embeds `impl<T: ?Sized> IsDefault for sync::Weak<T>`. -/
def sync_weak_is_default {α : Type} (w : SyncWeakM α) : Bool :=
  (sync_weak_upgrade w).isNone

/-- `rc::Weak::new()`: never referred to any allocation. -/
def rcWeakNew (α : Type) : RcWeakM α := ⟨none⟩

/-- `sync::Weak::new()`. -/
def syncWeakNew (α : Type) : SyncWeakM α := ⟨none⟩

/- ### Cursor and the `via_default_eq` fallback -/

/-- Model of `std::io::Cursor<T>`: the wrapped buffer and the position. -/
structure CursorM (α : Type) where
  inner : α
  pos : Nat

/-- Embeds `impl<T> IsDefault for Cursor<T>`: `matches!(self.position(), 0u64)`. -/
def cursor_is_default {α : Type} (c : CursorM α) : Bool := c.pos == 0

/-- `Cursor<T>`'s std-derived `PartialEq`: structural, comparing the buffer
AND the position. -/
def cursorEq {α : Type} (eqa : α → α → Bool) (a b : CursorM α) : Bool :=
  eqa a.inner b.inner && a.pos == b.pos

/-- `Cursor<T>`'s std-derived `Default`: default buffer at position `0`. -/
def cursorDefault {α : Type} (da : α) : CursorM α := ⟨da, 0⟩

/-- Embeds the `via_default_eq` blanket impl
`impl<T: Default + PartialEq> IsDefault for T { self == &Self::default() }`,
parametrised by the type's `Default::default()` value and `PartialEq::eq`. -/
def via_default_eq {α : Type} (defaultVal : α) (eq : α → α → Bool) (x : α) : Bool :=
  eq x defaultVal

/- ### Derive generator, struct rule -/

/-- Modelled from the spec: the derive generator crate (`is_default_derive`)
is not under `src/` (only its doc examples in `is_default/src/lib.rs` and the
tests in `tests/derive.rs` are).  Spec section 4.2: a zero-field struct gets a
constant-`true` implementation; a struct with fields evaluates the capability
on each field in declaration order and combines the results with
short-circuiting logical AND.  A field is a type together with its current
value and its capability implementation. -/
def FieldD : Type 1 := Σ α : Type, α × (α → Bool)

/-- The capability check of one field. -/
def field_check (f : FieldD) : Bool := f.2.2 f.2.1

/-- Modelled from the spec: the implementation the generator synthesizes for
a struct — the short-circuit AND, in declaration order, of each field's
capability check (`List.all` is exactly that fold; it is `true` on `[]`). -/
def derived_struct_is_default (fields : List FieldD) : Bool :=
  fields.all field_check

/- ### Helper lemmas -/

/-- The slice impl reports default exactly on the empty slice or when every
element is default. -/
theorem slice_default_iff {α : Type} (d : α → Bool) (l : List α) :
    slice_is_default d l = true ↔ l.length = 0 ∨ ∀ x ∈ l, d x = true := by
  cases l with
  | nil => simp [slice_is_default]
  | cons x xs => simp [slice_is_default, List.all_eq_true]

/- ### Claims -/

/-- C1 counterexample: the f32 impl is `matches!(self, 0f32)`, and a float
literal pattern compares with IEEE `==`, under which `-0.0 == +0.0`; so
`is_default(-0.0)` (bit pattern `2147483648 = 2 ^ 31`) is `true` even though
`-0.0` is not the `+0.0` bit pattern `0`, contradicting the claim. -/
theorem C1_neg_zero_counterexample :
    f32_is_default 2147483648 = true ∧ (2147483648 : Nat) ≠ 0 := by
  constructor
  · decide
  · decide

/-- C1 (amended): for every f32 (resp. f64) bit pattern, `is_default` is true
exactly when the value compares IEEE-equal to zero, i.e. when the pattern is
`+0.0` OR `-0.0`; NaNs and the infinities are not default. -/
theorem C1_float_default_iff_ieee_zero :
    (∀ b : Nat, b < 4294967296 →
      (f32_is_default b = true ↔ b = 0 ∨ b = 2147483648)) ∧
    (∀ b : Nat, b < 18446744073709551616 →
      (f64_is_default b = true ↔ b = 0 ∨ b = 9223372036854775808)) := by
  constructor
  · intro b hb
    constructor
    · intro h
      rw [f32_is_default, floatEqBits] at h
      simp only [Bool.and_eq_true, Bool.or_eq_true, beq_iff_eq] at h
      obtain ⟨-, h | ⟨hz, -⟩⟩ := h
      · exact Or.inl h
      · norm_num [isZeroBits] at hz
        omega
    · rintro (rfl | rfl) <;> decide
  · intro b hb
    constructor
    · intro h
      rw [f64_is_default, floatEqBits] at h
      simp only [Bool.and_eq_true, Bool.or_eq_true, beq_iff_eq] at h
      obtain ⟨-, h | ⟨hz, -⟩⟩ := h
      · exact Or.inl h
      · norm_num [isZeroBits] at hz
        omega
    · rintro (rfl | rfl) <;> decide

/-- C1 witness: the amended theorem applied at the `-0.0` patterns of both
widths. -/
theorem C1_float_default_iff_ieee_zero_witness :
    f32_is_default 2147483648 = true ∧ f64_is_default 9223372036854775808 = true :=
  ⟨(C1_float_default_iff_ieee_zero.1 2147483648 (by norm_num)).mpr (Or.inr rfl),
   (C1_float_default_iff_ieee_zero.2 9223372036854775808 (by norm_num)).mpr (Or.inr rfl)⟩

/-- C2: for `Mutex` and `RwLock`, `is_default` is true exactly when the
non-blocking acquisition (`try_lock` / `try_read`) succeeds immediately AND
the guarded value is default; whenever the lock is held by another context or
poisoned, the result is `false`.  The embedding is a total `Bool`-valued
function, so no error is raised or propagated on any input. -/
theorem C2_lock_try_acquire_iff :
    (∀ (α : Type) (d : α → Bool) (m : MutexM α),
      mutex_is_default d m = true ↔
        m.held = false ∧ m.poisoned = false ∧ d m.value = true) ∧
    (∀ (α : Type) (d : α → Bool) (r : RwLockM α),
      rwlock_is_default d r = true ↔
        r.writeHeld = false ∧ r.poisoned = false ∧ d r.value = true) := by
  constructor
  · rintro α d ⟨v, held, poisoned⟩
    cases held <;> cases poisoned <;>
      simp [mutex_is_default, mutex_try_lock]
  · rintro α d ⟨v, wh, poisoned, readers⟩
    cases wh <;> cases poisoned <;>
      simp [rwlock_is_default, rwlock_try_read]

/-- C3 counterexample: a `RefCell` whose contained value `0` is default but
which is currently mutably borrowed reports `is_default = false` (its impl is
`self.try_borrow().map_or(false, ..)`), contradicting the claimed
unconditional "iff the contained value is default". -/
theorem C3_refcell_borrowed_counterexample :
    refcell_is_default (fun n : Nat => n == 0) (⟨0, true⟩ : RefCellM Nat) = false ∧
      ((fun n : Nat => n == 0) 0) = true := by
  constructor <;> rfl

/-- C3 (amended): for `Cell` the claim holds as stated — `is_default` is true
iff the contained value is default; for `RefCell` it holds only when no
mutable borrow is outstanding — `is_default` is true iff the cell is not
mutably borrowed AND the contained value is default. -/
theorem C3_cell_refcell_default_iff :
    (∀ (α : Type) (d : α → Bool) (c : CellM α),
      cell_is_default d c = true ↔ d c.value = true) ∧
    (∀ (α : Type) (d : α → Bool) (c : RefCellM α),
      refcell_is_default d c = true ↔ c.writeBorrowed = false ∧ d c.value = true) := by
  constructor
  · intro α d c
    exact Iff.rfl
  · rintro α d ⟨v, wb⟩
    cases wb <;> simp [refcell_is_default, refcell_try_borrow]

/-- C4: a slice is default iff it has length zero or every element is
default; an array `[T; N]` likewise, and `[T; 0]` is always default. -/
theorem C4_slice_array_default_iff :
    (∀ (α : Type) (d : α → Bool) (l : List α),
      slice_is_default d l = true ↔ l.length = 0 ∨ ∀ x ∈ l, d x = true) ∧
    (∀ (α : Type) (n : Nat) (d : α → Bool) (v : Fin n → α),
      array_is_default d v = true ↔ n = 0 ∨ ∀ i : Fin n, d (v i) = true) ∧
    (∀ (α : Type) (d : α → Bool) (v : Fin 0 → α), array_is_default d v = true) := by
  refine ⟨fun α d l => slice_default_iff d l, ?_, ?_⟩
  · intro α n d v
    rw [array_is_default, slice_default_iff]
    simp [List.forall_mem_ofFn_iff]
  · intro α d v
    simp [array_is_default, slice_is_default, List.ofFn_zero]

/-- C4 witness: the empty slice and the empty array of a concrete type. -/
theorem C4_slice_array_default_iff_witness :
    slice_is_default (fun n : Nat => n == 0) [] = true :=
  (C4_slice_array_default_iff.1 Nat (fun n => n == 0) []).mpr (Or.inl rfl)

/-- C5: the arity-0 tuple is always default, and for every arity 1..12 the
generated tuple impl equals the logical AND of the component checks. -/
theorem C5_tuple_default_law :
    (∀ u : Unit, unit_is_default u = true) ∧
    (∀ (α1 : Type) (d1 : α1 → Bool) (a1 : α1),
      tuple1_is_default d1 a1 = true ↔ d1 a1 = true) ∧
    (∀ (α1 α2 : Type) (d1 : α1 → Bool) (d2 : α2 → Bool) (a1 : α1) (a2 : α2),
      tuple2_is_default d1 d2 (a1, a2) = true ↔ d1 a1 = true ∧ d2 a2 = true) ∧
    (∀ (α1 α2 α3 : Type) (d1 : α1 → Bool) (d2 : α2 → Bool) (d3 : α3 → Bool)
      (a1 : α1) (a2 : α2) (a3 : α3),
      tuple3_is_default d1 d2 d3 (a1, a2, a3) = true ↔
        d1 a1 = true ∧ d2 a2 = true ∧ d3 a3 = true) ∧
    (∀ (α1 α2 α3 α4 : Type) (d1 : α1 → Bool) (d2 : α2 → Bool) (d3 : α3 → Bool)
      (d4 : α4 → Bool) (a1 : α1) (a2 : α2) (a3 : α3) (a4 : α4),
      tuple4_is_default d1 d2 d3 d4 (a1, a2, a3, a4) = true ↔
        d1 a1 = true ∧ d2 a2 = true ∧ d3 a3 = true ∧ d4 a4 = true) ∧
    (∀ (α1 α2 α3 α4 α5 : Type) (d1 : α1 → Bool) (d2 : α2 → Bool) (d3 : α3 → Bool)
      (d4 : α4 → Bool) (d5 : α5 → Bool) (a1 : α1) (a2 : α2) (a3 : α3) (a4 : α4)
      (a5 : α5),
      tuple5_is_default d1 d2 d3 d4 d5 (a1, a2, a3, a4, a5) = true ↔
        d1 a1 = true ∧ d2 a2 = true ∧ d3 a3 = true ∧ d4 a4 = true ∧ d5 a5 = true) ∧
    (∀ (α1 α2 α3 α4 α5 α6 : Type) (d1 : α1 → Bool) (d2 : α2 → Bool)
      (d3 : α3 → Bool) (d4 : α4 → Bool) (d5 : α5 → Bool) (d6 : α6 → Bool)
      (a1 : α1) (a2 : α2) (a3 : α3) (a4 : α4) (a5 : α5) (a6 : α6),
      tuple6_is_default d1 d2 d3 d4 d5 d6 (a1, a2, a3, a4, a5, a6) = true ↔
        d1 a1 = true ∧ d2 a2 = true ∧ d3 a3 = true ∧ d4 a4 = true ∧ d5 a5 = true ∧
          d6 a6 = true) ∧
    (∀ (α1 α2 α3 α4 α5 α6 α7 : Type) (d1 : α1 → Bool) (d2 : α2 → Bool)
      (d3 : α3 → Bool) (d4 : α4 → Bool) (d5 : α5 → Bool) (d6 : α6 → Bool)
      (d7 : α7 → Bool) (a1 : α1) (a2 : α2) (a3 : α3) (a4 : α4) (a5 : α5) (a6 : α6)
      (a7 : α7),
      tuple7_is_default d1 d2 d3 d4 d5 d6 d7 (a1, a2, a3, a4, a5, a6, a7) = true ↔
        d1 a1 = true ∧ d2 a2 = true ∧ d3 a3 = true ∧ d4 a4 = true ∧ d5 a5 = true ∧
          d6 a6 = true ∧ d7 a7 = true) ∧
    (∀ (α1 α2 α3 α4 α5 α6 α7 α8 : Type) (d1 : α1 → Bool) (d2 : α2 → Bool)
      (d3 : α3 → Bool) (d4 : α4 → Bool) (d5 : α5 → Bool) (d6 : α6 → Bool)
      (d7 : α7 → Bool) (d8 : α8 → Bool) (a1 : α1) (a2 : α2) (a3 : α3) (a4 : α4)
      (a5 : α5) (a6 : α6) (a7 : α7) (a8 : α8),
      tuple8_is_default d1 d2 d3 d4 d5 d6 d7 d8
          (a1, a2, a3, a4, a5, a6, a7, a8) = true ↔
        d1 a1 = true ∧ d2 a2 = true ∧ d3 a3 = true ∧ d4 a4 = true ∧ d5 a5 = true ∧
          d6 a6 = true ∧ d7 a7 = true ∧ d8 a8 = true) ∧
    (∀ (α1 α2 α3 α4 α5 α6 α7 α8 α9 : Type) (d1 : α1 → Bool) (d2 : α2 → Bool)
      (d3 : α3 → Bool) (d4 : α4 → Bool) (d5 : α5 → Bool) (d6 : α6 → Bool)
      (d7 : α7 → Bool) (d8 : α8 → Bool) (d9 : α9 → Bool) (a1 : α1) (a2 : α2)
      (a3 : α3) (a4 : α4) (a5 : α5) (a6 : α6) (a7 : α7) (a8 : α8) (a9 : α9),
      tuple9_is_default d1 d2 d3 d4 d5 d6 d7 d8 d9
          (a1, a2, a3, a4, a5, a6, a7, a8, a9) = true ↔
        d1 a1 = true ∧ d2 a2 = true ∧ d3 a3 = true ∧ d4 a4 = true ∧ d5 a5 = true ∧
          d6 a6 = true ∧ d7 a7 = true ∧ d8 a8 = true ∧ d9 a9 = true) ∧
    (∀ (α1 α2 α3 α4 α5 α6 α7 α8 α9 α10 : Type) (d1 : α1 → Bool) (d2 : α2 → Bool)
      (d3 : α3 → Bool) (d4 : α4 → Bool) (d5 : α5 → Bool) (d6 : α6 → Bool)
      (d7 : α7 → Bool) (d8 : α8 → Bool) (d9 : α9 → Bool) (d10 : α10 → Bool)
      (a1 : α1) (a2 : α2) (a3 : α3) (a4 : α4) (a5 : α5) (a6 : α6) (a7 : α7)
      (a8 : α8) (a9 : α9) (a10 : α10),
      tuple10_is_default d1 d2 d3 d4 d5 d6 d7 d8 d9 d10
          (a1, a2, a3, a4, a5, a6, a7, a8, a9, a10) = true ↔
        d1 a1 = true ∧ d2 a2 = true ∧ d3 a3 = true ∧ d4 a4 = true ∧ d5 a5 = true ∧
          d6 a6 = true ∧ d7 a7 = true ∧ d8 a8 = true ∧ d9 a9 = true ∧
          d10 a10 = true) ∧
    (∀ (α1 α2 α3 α4 α5 α6 α7 α8 α9 α10 α11 : Type) (d1 : α1 → Bool)
      (d2 : α2 → Bool) (d3 : α3 → Bool) (d4 : α4 → Bool) (d5 : α5 → Bool)
      (d6 : α6 → Bool) (d7 : α7 → Bool) (d8 : α8 → Bool) (d9 : α9 → Bool)
      (d10 : α10 → Bool) (d11 : α11 → Bool) (a1 : α1) (a2 : α2) (a3 : α3)
      (a4 : α4) (a5 : α5) (a6 : α6) (a7 : α7) (a8 : α8) (a9 : α9) (a10 : α10)
      (a11 : α11),
      tuple11_is_default d1 d2 d3 d4 d5 d6 d7 d8 d9 d10 d11
          (a1, a2, a3, a4, a5, a6, a7, a8, a9, a10, a11) = true ↔
        d1 a1 = true ∧ d2 a2 = true ∧ d3 a3 = true ∧ d4 a4 = true ∧ d5 a5 = true ∧
          d6 a6 = true ∧ d7 a7 = true ∧ d8 a8 = true ∧ d9 a9 = true ∧
          d10 a10 = true ∧ d11 a11 = true) ∧
    (∀ (α1 α2 α3 α4 α5 α6 α7 α8 α9 α10 α11 α12 : Type) (d1 : α1 → Bool)
      (d2 : α2 → Bool) (d3 : α3 → Bool) (d4 : α4 → Bool) (d5 : α5 → Bool)
      (d6 : α6 → Bool) (d7 : α7 → Bool) (d8 : α8 → Bool) (d9 : α9 → Bool)
      (d10 : α10 → Bool) (d11 : α11 → Bool) (d12 : α12 → Bool) (a1 : α1) (a2 : α2)
      (a3 : α3) (a4 : α4) (a5 : α5) (a6 : α6) (a7 : α7) (a8 : α8) (a9 : α9)
      (a10 : α10) (a11 : α11) (a12 : α12),
      tuple12_is_default d1 d2 d3 d4 d5 d6 d7 d8 d9 d10 d11 d12
          (a1, a2, a3, a4, a5, a6, a7, a8, a9, a10, a11, a12) = true ↔
        d1 a1 = true ∧ d2 a2 = true ∧ d3 a3 = true ∧ d4 a4 = true ∧ d5 a5 = true ∧
          d6 a6 = true ∧ d7 a7 = true ∧ d8 a8 = true ∧ d9 a9 = true ∧
          d10 a10 = true ∧ d11 a11 = true ∧ d12 a12 = true) := by
  refine ⟨?_, ?_, ?_, ?_, ?_, ?_, ?_, ?_, ?_, ?_, ?_, ?_, ?_⟩ <;> intros <;>
    simp [unit_is_default, tuple1_is_default, tuple2_is_default, tuple3_is_default,
      tuple4_is_default, tuple5_is_default, tuple6_is_default, tuple7_is_default,
      tuple8_is_default, tuple9_is_default, tuple10_is_default, tuple11_is_default,
      tuple12_is_default, and_assoc]

/-- C6: the pointer and reference wrappers (`Box`, `Rc`, `Arc`, `&T`,
`&mut T`) delegate transparently: `is_default(wrapper(v)) = is_default(v)`. -/
theorem C6_pointer_delegation_law :
    (∀ (α : Type) (d : α → Bool) (v : α), box_is_default d (BoxM.mk v) = d v) ∧
    (∀ (α : Type) (d : α → Bool) (v : α), rc_is_default d (RcM.mk v) = d v) ∧
    (∀ (α : Type) (d : α → Bool) (v : α), arc_is_default d (ArcM.mk v) = d v) ∧
    (∀ (α : Type) (d : α → Bool) (v : α), ref_is_default d v = d v) ∧
    (∀ (α : Type) (d : α → Bool) (v : α), mutref_is_default d v = d v) :=
  ⟨fun _ _ _ => rfl, fun _ _ _ => rfl, fun _ _ _ => rfl, fun _ _ _ => rfl,
   fun _ _ _ => rfl⟩

/-- C7: each of the eight sequence containers is default exactly when its
element count is zero; none of the container models takes an element check,
and a non-empty container reports `false` whatever its elements are (last
conjunct), so a non-empty container of all-default elements is not default. -/
theorem C7_container_empty_iff :
    (∀ (α : Type) (v : VecM α), vec_is_default v = true ↔ v.elems.length = 0) ∧
    (∀ (α : Type) (v : VecDequeM α),
      vecdeque_is_default v = true ↔ v.elems.length = 0) ∧
    (∀ (α : Type) (v : LinkedListM α),
      linkedlist_is_default v = true ↔ v.elems.length = 0) ∧
    (∀ (α : Type) (v : BTreeSetM α),
      btreeset_is_default v = true ↔ v.elems.length = 0) ∧
    (∀ (α : Type) (v : HashSetM α),
      hashset_is_default v = true ↔ v.elems.length = 0) ∧
    (∀ (α : Type) (v : BinaryHeapM α),
      binaryheap_is_default v = true ↔ v.elems.length = 0) ∧
    (∀ (κ ν : Type) (v : BTreeMapM κ ν),
      btreemap_is_default v = true ↔ v.entries.length = 0) ∧
    (∀ (κ ν : Type) (v : HashMapM κ ν),
      hashmap_is_default v = true ↔ v.entries.length = 0) ∧
    (∀ (α : Type) (x : α) (xs : List α), vec_is_default (VecM.mk (x :: xs)) = false) := by
  refine ⟨?_, ?_, ?_, ?_, ?_, ?_, ?_, ?_, fun α x xs => rfl⟩ <;>
    · intros
      rename_i v
      obtain ⟨l⟩ := v
      cases l <;>
        simp [vec_is_default, vecdeque_is_default, linkedlist_is_default,
          btreeset_is_default, hashset_is_default, binaryheap_is_default,
          btreemap_is_default, hashmap_is_default]

/-- C8 counterexample: `Cursor<T>` has both a tailored impl (position == 0,
buffer ignored) and, through std's derived `Default` and `PartialEq`, the
fallback's preconditions — yet on `Cursor::new(1)` (non-default buffer,
position 0, as for `Cursor::new([1u8])`) the tailored impl reports `true`
while the construct-default-and-compare-equal fallback reports `false`. -/
theorem C8_cursor_fallback_counterexample :
    cursor_is_default (CursorM.mk 1 0 : CursorM Nat) = true ∧
      via_default_eq (cursorDefault 0) (cursorEq (fun a b : Nat => a == b))
        (CursorM.mk 1 0) = false := by
  constructor <;> rfl

/-- C8 (amended): for the spec's exemplified types — the unsigned and signed
integer primitives, `bool`, `char`, `f32`, `f64` and `str` — the fallback
`self == Self::default()` computes the same boolean as the tailored impl on
every input; the agreement does NOT extend to every type meeting the
fallback's preconditions (see the `Cursor` counterexample). -/
theorem C8_fallback_agrees_on_primitives :
    (∀ x : Nat, uint_is_default x = via_default_eq 0 (fun a b => a == b) x) ∧
    (∀ x : Int, int_is_default x = via_default_eq 0 (fun a b => a == b) x) ∧
    (∀ b : Bool, bool_is_default b = via_default_eq false (fun a b => a == b) b) ∧
    (∀ c : Nat, char_is_default c = via_default_eq 0 (fun a b => a == b) c) ∧
    (∀ b : Nat, f32_is_default b = via_default_eq 0 (floatEqBits 8 23) b) ∧
    (∀ b : Nat, f64_is_default b = via_default_eq 0 (floatEqBits 11 52) b) ∧
    (∀ s : List Char, str_is_default s = via_default_eq [] (fun a b => a == b) s) := by
  refine ⟨fun x => rfl, fun x => rfl, ?_, fun c => rfl, fun b => rfl, fun b => rfl, ?_⟩
  · intro b
    cases b <;> rfl
  · intro s
    cases s <;> rfl

/-- C9: the derive generator's struct rule — the synthesized implementation
is true exactly when every field's capability check is true (the short-circuit
AND over the fields in declaration order), and a zero-field struct is always
default. -/
theorem C9_derived_struct_law :
    (∀ fields : List FieldD,
      derived_struct_is_default fields = true ↔ ∀ f ∈ fields, field_check f = true) ∧
    derived_struct_is_default [] = true := by
  constructor
  · intro fields
    exact List.all_eq_true
  · rfl

/-- C9 witness: a one-field struct whose field value `0` passes its check. -/
theorem C9_derived_struct_law_witness :
    derived_struct_is_default [⟨Nat, (0, fun n : Nat => n == 0)⟩] = true :=
  (C9_derived_struct_law.1 [⟨Nat, (0, fun n : Nat => n == 0)⟩]).mpr (by
    intro f hf
    simp only [List.mem_singleton] at hf
    subst hf
    rfl)

/-- C10: for both `rc::Weak` and `sync::Weak` (no bound on the pointee type,
whose value is never inspected), `is_default` is true exactly when `upgrade()`
returns `None`; in particular a fresh `Weak::new()` is default. -/
theorem C10_weak_default_iff :
    (∀ (α : Type) (w : RcWeakM α),
      rc_weak_is_default w = true ↔ rc_weak_upgrade w = none) ∧
    (∀ (α : Type) (w : SyncWeakM α),
      sync_weak_is_default w = true ↔ sync_weak_upgrade w = none) ∧
    (∀ α : Type, rc_weak_is_default (rcWeakNew α) = true) ∧
    (∀ α : Type, sync_weak_is_default (syncWeakNew α) = true) := by
  refine ⟨?_, ?_, fun α => rfl, fun α => rfl⟩ <;>
    · intro α w
      simp [rc_weak_is_default, sync_weak_is_default, Option.isNone_iff_eq_none]
